import Mathlib

/-!
Verification of the chest-radiograph SSIM classification pipeline
(`tester.py`): a shallow embedding of the segmentation engine
(`segmentar_pulmao_batch`, `segmentar_pulmao`), the similarity scorer
(`normalizar_para_ssim`, `calcular_ssim_robusto`) and the classifier
(`classificar_imagens`), with theorems about the decision rule, the
confidence invariants and the error-handling policy.

External libraries (cv2 resize interpolation, the Keras segmentation
model, skimage's structural similarity) are modelled as parameters:
their pixel-level numerics are opaque, but their shapes and
success/failure behaviour are explicit, which is all the properties
below depend on.
-/

namespace Chexpert

/-- A single-channel image: a grid of intensity samples, modelled as a
shape plus a total pixel function (values are rationals; 8-bit data
lives in `[0,255]`, normalised data in `[0,1]`). -/
structure Img where
  rows : Nat
  cols : Nat
  data : Nat → Nat → ℚ

/-- `SEG_SIZE = (256, 256)` from tester.py (cv2 convention: width, height). -/
def SEG_SIZE : Nat × Nat := (256, 256)

/-- `SSIM_SIZE = (224, 224)` from tester.py. -/
def SSIM_SIZE : Nat × Nat := (224, 224)

/-- `MASK_THRESHOLD = 0.5` from tester.py. -/
def MASK_THRESHOLD : ℚ := 1/2

/-- Pixel-content model of `cv2.resize(·, ·, interpolation=INTER_AREA)`:
given the source image and the target size, the interpolated pixel grid.
The interpolation kernel is external (OpenCV), so it is a parameter; the
output shape is fixed by the target size, which is the library's contract. -/
abbrev Interp := Img → Nat × Nat → Nat → Nat → ℚ

/-- `cv2.resize(img, size)`: the result has the requested size (cv2's
size is (width, height), so `rows = size.2`, `cols = size.1`) and pixel
content given by the interpolation model. -/
def cv2_resize (interp : Interp) (img : Img) (size : Nat × Nat) : Img :=
  { rows := size.2, cols := size.1, data := interp img size }

/-- Apply a function to every pixel, keeping the shape (numpy
elementwise arithmetic such as `img / 255.0`). -/
def mapData (f : ℚ → ℚ) (img : Img) : Img :=
  { rows := img.rows, cols := img.cols, data := fun i j => f (img.data i j) }

/-- `np.zeros_like(img)`: an all-zero image with the shape of `img`. -/
def zeros_like (img : Img) : Img :=
  { rows := img.rows, cols := img.cols, data := fun _ _ => 0 }

/-- `astype(np.uint8)` on a nonnegative float: truncate to an integer
and wrap modulo 256 (the values produced in tester.py lie in
`[0, 255]`, where this is plain truncation). -/
def toUInt8Q (q : ℚ) : ℚ := ((⌊q⌋ % 256 : ℤ) : ℚ)

/-- The mask application of `segmentar_pulmao_batch` (tester.py lines
102-105): binarise the predicted probability map at `MASK_THRESHOLD`
and multiply it into the normalised image, rescaled back to 8-bit:
`img_seg = (img * 255.0 * mask_bin).astype(np.uint8)`. The result keeps
the (already resized) image's shape. -/
def aplicar_mascara (img mask : Img) : Img :=
  { rows := img.rows, cols := img.cols,
    data := fun i j =>
      toUInt8Q (img.data i j * 255 * (if mask.data i j > MASK_THRESHOLD then 1 else 0)) }

/-- The batch preparation loop of `segmentar_pulmao_batch` (tester.py
lines 85-89): each image is resized to `SEG_SIZE` with area
interpolation and scaled to `[0,1]` by dividing by 255. -/
def preparar_batch (interp : Interp) (imagens_gray : List Img) : List Img :=
  imagens_gray.map (fun img => mapData (· / 255) (cv2_resize interp img SEG_SIZE))

/-- The segmentation model call `model_segment.predict`: an external
Keras model, so a parameter. It consumes the prepared batch and either
returns one probability map per input or fails (resource exhaustion
etc.), which the source catches. -/
abbrev Predict := List Img → Except Unit (List Img)

/-- `segmentar_pulmao_batch` from tester.py (lines 71-107): empty input
gives an empty result; otherwise the prepared batch is submitted to the
model; if the model call fails every input is replaced by
`np.zeros_like(img)`; on success each prepared image is masked with its
probability map (`zip(batch, masks)`). -/
def segmentar_pulmao_batch (predict : Predict) (interp : Interp)
    (imagens_gray : List Img) : List Img :=
  if imagens_gray.isEmpty then []
  else
    match predict (preparar_batch interp imagens_gray) with
    | Except.error _ => imagens_gray.map zeros_like
    | Except.ok masks =>
        ((preparar_batch interp imagens_gray).zip masks).map
          (fun p => aplicar_mascara p.1 p.2)

/-- `segmentar_pulmao` from tester.py (lines 110-120): the single-image
wrapper `segmentar_pulmao_batch([imagem_gray])[0]`. Python's `[0]`
indexing can raise on an empty list, so it is embedded as `head?`. -/
def segmentar_pulmao (predict : Predict) (interp : Interp)
    (imagem_gray : Img) : Option Img :=
  (segmentar_pulmao_batch predict interp [imagem_gray]).head?

/-- `img_float.max() > 1.0` on the (never empty) resized image: some
pixel inside the shape exceeds 1. -/
def imgAnyGt1 (img : Img) : Bool :=
  (List.range img.rows).any (fun i =>
    (List.range img.cols).any (fun j => img.data i j > 1))

/-- `np.clip(img, 0.0, 1.0)`. -/
def clip01 (img : Img) : Img :=
  mapData (fun q => max 0 (min q 1)) img

/-- `normalizar_para_ssim` from tester.py (lines 123-140): resize to
`SSIM_SIZE` with area interpolation, divide by 255 only when the
maximum exceeds 1, clip to `[0,1]`. -/
def normalizar_para_ssim (interp : Interp) (img : Img) : Img :=
  let img_resized := cv2_resize interp img SSIM_SIZE
  let img_float := if imgAnyGt1 img_resized then mapData (· / 255) img_resized else img_resized
  clip01 img_float

/-- An IEEE float as skimage's `structural_similarity` returns it:
either a finite value or a non-finite one (NaN or an infinity), which
`np.isfinite` rejects. -/
inductive FloatVal where
  | fin (q : ℚ)
  | nonfin
deriving DecidableEq

/-- The skimage `ssim(·, ·, data_range=1.0)` call: an external numeric
routine, so a parameter. It may raise (`Except.error`), return a
non-finite float, or return a finite score. -/
abbrev SsimLib := Img → Img → Except Unit FloatVal

/-- `calcular_ssim_robusto` from tester.py (lines 143-166): normalise
both inputs, call skimage's SSIM inside a `try`; a raised exception or
a non-finite score becomes `None`, a finite score is returned. -/
def calcular_ssim_robusto (interp : Interp) (ssimLib : SsimLib)
    (img1 img2 : Img) : Option ℚ :=
  match ssimLib (normalizar_para_ssim interp img1) (normalizar_para_ssim interp img2) with
  | Except.error _ => none
  | Except.ok FloatVal.nonfin => none
  | Except.ok (FloatVal.fin v) => some v

/-- The classification labels of tester.py: `"Saudável"`, `"Doente"`,
`"Indefinido"`, `"Erro"`. -/
inductive Classe where
  | Saudavel
  | Doente
  | Indefinido
  | Erro
deriving DecidableEq

/-- One row of the output report: the dictionary appended by
`classificar_imagens` (tester.py lines 310-318 and 327-335). Undefined
means (Python `nan` / `None`) are `none`. -/
structure Resultado where
  imagem : String
  ssim_medio_saudaveis : Option ℚ
  ssim_medio_doentes : Option ℚ
  classificacao : Classe
  confianca : ℚ
  n_comparacoes_saudavel : Nat
  n_comparacoes_doente : Nat
deriving DecidableEq

/-- The row appended by the `except` handler of `classificar_imagens`
(tester.py lines 325-335). -/
def linha_erro (nome : String) : Resultado :=
  { imagem := nome, ssim_medio_saudaveis := none, ssim_medio_doentes := none,
    classificacao := Classe.Erro, confianca := 0,
    n_comparacoes_saudavel := 0, n_comparacoes_doente := 0 }

/-- `nome = nomes_desconhecidos[idx] if idx < len(nomes_desconhecidos)
else f"img_{idx}"` (tester.py line 269). -/
def nome_em (nomes : List String) (idx : Nat) : String :=
  match nomes.get? idx with
  | some n => n
  | none => "img_" ++ toString idx

/-- The per-pool score collection of `classificar_imagens` (tester.py
lines 272-278): every defined robust SSIM value of the unknown against
the pool, in pool order. (Python's `if imgs:` guard is a no-op: for an
empty pool the loop collects the empty list anyway.) -/
def scores_validos (ssimR : Img → Img → Option ℚ) (img : Img)
    (pool : List Img) : List ℚ :=
  pool.filterMap (fun ref => ssimR img ref)

/-- `np.nanmean(l) if l else float('nan')` on a list of finite floats:
`none` for the empty list, otherwise the arithmetic mean. -/
def media_opt (l : List ℚ) : Option ℚ :=
  if l.isEmpty then none else some (l.sum / l.length)

/-- The decision chain of `classificar_imagens` (tester.py lines
293-308), in source order: both means nan → `Indefinido` with
confidence 0; only the diseased mean nan → `Saudavel` with the healthy
mean as confidence; only the healthy mean nan → `Doente` with the
diseased mean as confidence; both defined → strict `>` picks
`Saudavel` with the gap as confidence, otherwise (ties included)
`Doente` with the opposite gap. -/
def regra_decisao (mean_saudavel mean_doente : Option ℚ) : Classe × ℚ :=
  match mean_saudavel, mean_doente with
  | none, none => (Classe.Indefinido, 0)
  | some ms, none => (Classe.Saudavel, ms)
  | none, some md => (Classe.Doente, md)
  | some ms, some md =>
      if ms > md then (Classe.Saudavel, ms - md) else (Classe.Doente, md - ms)

/-- The `try` body of the classification loop for one unknown image
(tester.py lines 271-318): collect defined scores against each pool,
take the means, and apply the decision rule. -/
def classificar_uma (ssimR : Img → Img → Option ℚ) (img : Img)
    (imgs_saudaveis imgs_doentes : List Img) (nome : String) : Resultado :=
  let ssim_saudaveis := scores_validos ssimR img imgs_saudaveis
  let mean_saudavel := media_opt ssim_saudaveis
  let ssim_doentes := scores_validos ssimR img imgs_doentes
  let mean_doente := media_opt ssim_doentes
  let cc : Classe × ℚ := regra_decisao mean_saudavel mean_doente
  { imagem := nome, ssim_medio_saudaveis := mean_saudavel,
    ssim_medio_doentes := mean_doente, classificacao := cc.1,
    confianca := cc.2,
    n_comparacoes_saudavel := ssim_saudaveis.length,
    n_comparacoes_doente := ssim_doentes.length }

/-- `classificar_imagens` from tester.py (lines 242-337). If both
reference pools are empty it logs and returns the empty list at once
(lines 262-264). Otherwise it enumerates the unknowns; each iteration
appends exactly one row: the `try` body's row, or on an exception the
`linha_erro` row. Unexpected exceptions come from the runtime, not from
the embedded arithmetic, so they are an oracle `crash` telling which
iterations raise before their append. -/
def classificar_imagens (ssimR : Img → Img → Option ℚ) (crash : Nat → Bool)
    (imgs_desconhecidos : List Img) (nomes_desconhecidos : List String)
    (imgs_saudaveis imgs_doentes : List Img) : List Resultado :=
  if imgs_saudaveis.isEmpty && imgs_doentes.isEmpty then []
  else
    imgs_desconhecidos.enum.map (fun p =>
      let nome := nome_em nomes_desconhecidos p.1
      if crash p.1 then linha_erro nome
      else classificar_uma ssimR p.2 imgs_saudaveis imgs_doentes nome)

/-! ### Concrete test data

Small concrete images, scorers and model behaviours used to instantiate
the theorems (the images are constant grids; the scorers read a corner
pixel of the reference, so different references give different scores). -/

def imgA : Img := { rows := 256, cols := 256, data := fun _ _ => 3/4 }

def imgB : Img := { rows := 256, cols := 256, data := fun _ _ => 1/4 }

def imgU : Img := { rows := 256, cols := 256, data := fun _ _ => 1/2 }

def img100 : Img := { rows := 100, cols := 100, data := fun _ _ => 5 }

def ssimW : Img → Img → Option ℚ := fun _ ref => some (ref.data 0 0)

def ssimNeg : Img → Img → Option ℚ := fun _ _ => some (-(1/2))

def ssimPos : Img → Img → Option ℚ := fun _ _ => some (1/2)

def ssimLibFin : SsimLib := fun _ _ => Except.ok (FloatVal.fin (9/10))

def semCrash : Nat → Bool := fun _ => false

def interp0 : Interp := fun _ _ _ _ => 0

def predFail : Predict := fun _ => Except.error ()

def predOk : Predict := fun batch => Except.ok batch

/-! ### Helper lemmas shared by the claim theorems -/

theorem classificar_imagens_getElem (ssimR : Img → Img → Option ℚ)
    (crash : Nat → Bool) (imgs : List Img) (nomes : List String)
    (saud doen : List Img) (idx : Nat) (img : Img)
    (hpool : saud ≠ [] ∨ doen ≠ [])
    (himg : imgs[idx]? = some img) :
    (classificar_imagens ssimR crash imgs nomes saud doen)[idx]? =
      some (if crash idx then linha_erro (nome_em nomes idx)
            else classificar_uma ssimR img saud doen (nome_em nomes idx)) := by
  have hguard : (saud.isEmpty && doen.isEmpty) = false := by
    rcases hpool with h | h <;> simp [List.isEmpty_iff, h]
  unfold classificar_imagens
  rw [hguard]
  simp only [Bool.false_eq_true, if_false, List.getElem?_map, List.getElem?_enum, himg]
  rfl

theorem classificar_imagens_length (ssimR : Img → Img → Option ℚ)
    (crash : Nat → Bool) (imgs : List Img) (nomes : List String)
    (saud doen : List Img)
    (hpool : saud ≠ [] ∨ doen ≠ []) :
    (classificar_imagens ssimR crash imgs nomes saud doen).length = imgs.length := by
  have hguard : (saud.isEmpty && doen.isEmpty) = false := by
    rcases hpool with h | h <;> simp [List.isEmpty_iff, h]
  unfold classificar_imagens
  rw [hguard]
  simp [List.enum_length]

theorem mem_classificar_imagens (ssimR : Img → Img → Option ℚ)
    (crash : Nat → Bool) (imgs : List Img) (nomes : List String)
    (saud doen : List Img) (r : Resultado)
    (hr : r ∈ classificar_imagens ssimR crash imgs nomes saud doen) :
    ∃ idx img, imgs[idx]? = some img ∧
      r = (if crash idx then linha_erro (nome_em nomes idx)
           else classificar_uma ssimR img saud doen (nome_em nomes idx)) := by
  unfold classificar_imagens at hr
  by_cases hguard : (saud.isEmpty && doen.isEmpty) = true
  · rw [if_pos hguard] at hr
    exact absurd hr (List.not_mem_nil r)
  · rw [if_neg hguard] at hr
    rcases List.mem_map.mp hr with ⟨p, hp, heq⟩
    refine ⟨p.1, p.2, List.mem_enum_iff_getElem?.mp hp, heq.symm⟩

theorem classificar_uma_ssim_saudaveis (ssimR : Img → Img → Option ℚ)
    (img : Img) (saud doen : List Img) (nome : String) :
    (classificar_uma ssimR img saud doen nome).ssim_medio_saudaveis =
      media_opt (scores_validos ssimR img saud) := rfl

theorem classificar_uma_ssim_doentes (ssimR : Img → Img → Option ℚ)
    (img : Img) (saud doen : List Img) (nome : String) :
    (classificar_uma ssimR img saud doen nome).ssim_medio_doentes =
      media_opt (scores_validos ssimR img doen) := rfl

theorem classificar_uma_classificacao (ssimR : Img → Img → Option ℚ)
    (img : Img) (saud doen : List Img) (nome : String) :
    (classificar_uma ssimR img saud doen nome).classificacao =
      (regra_decisao (media_opt (scores_validos ssimR img saud))
        (media_opt (scores_validos ssimR img doen))).1 := rfl

theorem classificar_uma_confianca (ssimR : Img → Img → Option ℚ)
    (img : Img) (saud doen : List Img) (nome : String) :
    (classificar_uma ssimR img saud doen nome).confianca =
      (regra_decisao (media_opt (scores_validos ssimR img saud))
        (media_opt (scores_validos ssimR img doen))).2 := rfl

theorem classificar_uma_both_defined (ssimR : Img → Img → Option ℚ)
    (img : Img) (saud doen : List Img) (nome : String) (ms md : ℚ)
    (hms : media_opt (scores_validos ssimR img saud) = some ms)
    (hmd : media_opt (scores_validos ssimR img doen) = some md) :
    (classificar_uma ssimR img saud doen nome).classificacao =
      (if md < ms then Classe.Saudavel else Classe.Doente) ∧
    (classificar_uma ssimR img saud doen nome).confianca =
      (if md < ms then ms - md else md - ms) := by
  rw [classificar_uma_classificacao, classificar_uma_confianca, hms, hmd]
  simp only [regra_decisao]
  constructor <;> · split <;> rfl

/-! ### C1 -/

/-- C1: for every unknown-image row with both pool means defined, the
classifier labels it `Saudavel` with confidence `ms - md` exactly when
`ms` strictly exceeds `md`, and otherwise (ties included) labels it
`Doente` with confidence `md - ms`. -/
theorem c1_regra_decisao (ssimR : Img → Img → Option ℚ) (crash : Nat → Bool)
    (imgs : List Img) (nomes : List String) (saud doen : List Img)
    (idx : Nat) (img : Img) (r : Resultado) (ms md : ℚ)
    (hpool : saud ≠ [] ∨ doen ≠ [])
    (himg : imgs[idx]? = some img)
    (hcrash : crash idx = false)
    (hr : (classificar_imagens ssimR crash imgs nomes saud doen)[idx]? = some r)
    (hms : r.ssim_medio_saudaveis = some ms)
    (hmd : r.ssim_medio_doentes = some md) :
    (r.classificacao = Classe.Saudavel ↔ md < ms) ∧
    (md < ms → r.confianca = ms - md) ∧
    (¬ md < ms → r.classificacao = Classe.Doente ∧ r.confianca = md - ms) := by
  rw [classificar_imagens_getElem ssimR crash imgs nomes saud doen idx img hpool himg,
    hcrash] at hr
  simp only [Bool.false_eq_true, if_false, Option.some_inj] at hr
  subst hr
  rw [classificar_uma_ssim_saudaveis] at hms
  rw [classificar_uma_ssim_doentes] at hmd
  have hcc := classificar_uma_both_defined ssimR img saud doen (nome_em nomes idx) ms md hms hmd
  rcases hcc with ⟨hclass, hconf⟩
  rw [hclass, hconf]
  by_cases hlt : md < ms
  · simp [hlt]
  · simp [hlt]

theorem c1_regra_decisao_witness :
    ((classificar_uma ssimW imgU [imgA] [imgB] "u").classificacao = Classe.Saudavel ↔
      (1/4 : ℚ) < 3/4) ∧
    ((1/4 : ℚ) < 3/4 → (classificar_uma ssimW imgU [imgA] [imgB] "u").confianca = 3/4 - 1/4) ∧
    (¬ (1/4 : ℚ) < 3/4 →
      (classificar_uma ssimW imgU [imgA] [imgB] "u").classificacao = Classe.Doente ∧
      (classificar_uma ssimW imgU [imgA] [imgB] "u").confianca = 1/4 - 3/4) :=
  c1_regra_decisao ssimW semCrash [imgU] ["u"] [imgA] [imgB] 0 imgU
    (classificar_uma ssimW imgU [imgA] [imgB] "u") (3/4) (1/4)
    (Or.inl (List.cons_ne_nil imgA [])) rfl rfl rfl
    (by rw [classificar_uma_ssim_saudaveis]
        simp [media_opt, scores_validos, ssimW, imgA])
    (by rw [classificar_uma_ssim_doentes]
        simp [media_opt, scores_validos, ssimW, imgB])

/-! ### C2 -/

/-- C2 (counterexample): an exact tie gives confidence 0 with both pool
means defined, so confidence 0 does not imply that both means are
undefined. -/
theorem c2_contraexemplo :
    ¬ (∀ r ∈ classificar_imagens ssimW semCrash [imgU] ["u"] [imgA] [imgA],
        r.confianca = 0 → r.ssim_medio_saudaveis = none ∧ r.ssim_medio_doentes = none) := by
  intro h
  have hrow : (classificar_imagens ssimW semCrash [imgU] ["u"] [imgA] [imgA])[0]? =
      some (classificar_uma ssimW imgU [imgA] [imgA] (nome_em ["u"] 0)) := by
    rw [classificar_imagens_getElem ssimW semCrash [imgU] ["u"] [imgA] [imgA] 0 imgU
      (Or.inl (List.cons_ne_nil imgA [])) rfl]
    rfl
  have hmem := List.getElem?_mem hrow
  have hms : media_opt (scores_validos ssimW imgU [imgA]) = some (3/4) := by
    simp [media_opt, scores_validos, ssimW, imgA]
  have hconf : (classificar_uma ssimW imgU [imgA] [imgA] (nome_em ["u"] 0)).confianca = 0 := by
    rw [classificar_uma_confianca, hms]
    simp [regra_decisao]
  have h2 := h _ hmem hconf
  rw [classificar_uma_ssim_saudaveis, hms] at h2
  exact Option.some_ne_none _ h2.1

/-- C2 (amended): a result's confidence is 0 only when both pool means
are undefined, or both are defined and exactly equal (a tie), or
exactly one is defined and that mean is itself 0. -/
theorem c2_confianca_zero_casos (ssimR : Img → Img → Option ℚ)
    (crash : Nat → Bool) (imgs : List Img) (nomes : List String)
    (saud doen : List Img) (r : Resultado)
    (hr : r ∈ classificar_imagens ssimR crash imgs nomes saud doen)
    (hc : r.confianca = 0) :
    (r.ssim_medio_saudaveis = none ∧ r.ssim_medio_doentes = none) ∨
    (∃ m, r.ssim_medio_saudaveis = some m ∧ r.ssim_medio_doentes = some m) ∨
    (r.ssim_medio_saudaveis = some 0 ∧ r.ssim_medio_doentes = none) ∨
    (r.ssim_medio_saudaveis = none ∧ r.ssim_medio_doentes = some 0) := by
  rcases mem_classificar_imagens ssimR crash imgs nomes saud doen r hr with ⟨idx, img, -, heq⟩
  by_cases hcr : crash idx = true
  · rw [if_pos hcr] at heq
    subst heq
    exact Or.inl ⟨rfl, rfl⟩
  · rw [if_neg hcr] at heq
    subst heq
    rw [classificar_uma_confianca] at hc
    rw [classificar_uma_ssim_saudaveis, classificar_uma_ssim_doentes]
    rcases h1 : media_opt (scores_validos ssimR img saud) with - | ms <;>
      rcases h2 : media_opt (scores_validos ssimR img doen) with - | md <;>
      rw [h1, h2] at hc <;> simp only [regra_decisao] at hc
    · exact Or.inl ⟨rfl, rfl⟩
    · right; right; right
      exact ⟨rfl, by rw [hc]⟩
    · right; right; left
      exact ⟨by rw [hc], rfl⟩
    · right; left
      refine ⟨ms, rfl, ?_⟩
      split at hc
      · have h3 : ms - md = 0 := hc
        have h4 : ms = md := by linarith
        rw [h4]
      · have h3 : md - ms = 0 := hc
        have h4 : ms = md := by linarith
        rw [h4]

theorem c2_confianca_zero_casos_witness :
    ((linha_erro "u").ssim_medio_saudaveis = none ∧
      (linha_erro "u").ssim_medio_doentes = none) ∨
    (∃ m, (linha_erro "u").ssim_medio_saudaveis = some m ∧
      (linha_erro "u").ssim_medio_doentes = some m) ∨
    ((linha_erro "u").ssim_medio_saudaveis = some 0 ∧
      (linha_erro "u").ssim_medio_doentes = none) ∨
    ((linha_erro "u").ssim_medio_saudaveis = none ∧
      (linha_erro "u").ssim_medio_doentes = some 0) :=
  c2_confianca_zero_casos ssimW (fun _ => true) [imgU] ["u"] [imgA] [imgA]
    (linha_erro "u") (by decide) rfl

/-! ### C3 -/

/-- C3 (counterexample): with both reference pools empty the classifier
returns no row at all for the unknown image, rather than a row labelled
`Indefinido` with confidence 0. -/
theorem c3_contraexemplo :
    ¬ ∃ r ∈ classificar_imagens ssimW semCrash [imgU] ["u"] [] [],
        r.classificacao = Classe.Indefinido ∧ r.confianca = 0 := by
  rintro ⟨r, hr, -⟩
  simp [classificar_imagens] at hr

/-- C3 (amended): when both reference pools are empty the classifier
short-circuits and returns the empty report, emitting no per-image
result (the `Indefinido`/confidence-0 outcome instead arises when both
pool means are undefined for an image, e.g. every comparison fails). -/
theorem c3_pools_vazios (ssimR : Img → Img → Option ℚ) (crash : Nat → Bool)
    (imgs : List Img) (nomes : List String) :
    classificar_imagens ssimR crash imgs nomes [] [] = [] := rfl

/-! ### C4 -/

/-- C4 (counterexample): when the model call fails, the fallback
`np.zeros_like(img)` keeps each input image's original shape, so a
100x100 input yields a 100x100 segmented image, not the canonical
256x256. -/
theorem c4_contraexemplo :
    ∃ s ∈ segmentar_pulmao_batch predFail interp0 [img100],
      ¬ (s.rows = 256 ∧ s.cols = 256) := by
  have hlist : segmentar_pulmao_batch predFail interp0 [img100] = [zeros_like img100] := rfl
  refine ⟨zeros_like img100, ?_, ?_⟩
  · rw [hlist]
    exact List.mem_singleton.mpr rfl
  · intro hcontra
    have h100 : (zeros_like img100).rows = 100 := rfl
    rw [hcontra.1] at h100
    exact absurd h100 (by decide)

/-- C4 (amended): on the normal path every segmented image has the
canonical 256x256 resolution; on the model-failure fallback path each
output is instead the all-zero image with its input's original shape. -/
theorem c4_resolucao_segmentada (predict : Predict) (interp : Interp)
    (imgs : List Img) :
    (∀ masks, predict (preparar_batch interp imgs) = Except.ok masks →
      ∀ s ∈ segmentar_pulmao_batch predict interp imgs, s.rows = 256 ∧ s.cols = 256) ∧
    (∀ e, predict (preparar_batch interp imgs) = Except.error e →
      segmentar_pulmao_batch predict interp imgs = imgs.map zeros_like) := by
  unfold segmentar_pulmao_batch
  by_cases hemp : imgs.isEmpty = true
  · rw [if_pos hemp]
    have : imgs = [] := List.isEmpty_iff.mp hemp
    subst this
    exact ⟨fun _ _ s hs => absurd hs (List.not_mem_nil s), fun _ _ => rfl⟩
  · rw [if_neg hemp]
    constructor
    · intro masks hok s hs
      rw [hok] at hs
      rcases List.mem_map.mp hs with ⟨p, hp, heq⟩
      have hp1 := (List.of_mem_zip hp).1
      rcases List.mem_map.mp hp1 with ⟨img, -, heq1⟩
      subst heq
      rw [show (aplicar_mascara p.1 p.2).rows = p.1.rows from rfl,
        show (aplicar_mascara p.1 p.2).cols = p.1.cols from rfl, ← heq1]
      exact ⟨rfl, rfl⟩
    · intro e herr
      rw [herr]

theorem c4_resolucao_segmentada_witness :
    segmentar_pulmao_batch predFail interp0 [img100] = [img100].map zeros_like :=
  (c4_resolucao_segmentada predFail interp0 [img100]).2 () rfl

/-! ### C5 -/

/-- C5: whenever at least one reference pool is non-empty, the report
has exactly one row per unknown image in input order; an iteration on
which an exception is raised contributes the `Erro` row (confidence 0,
both means undefined, both comparison counts 0), and the others the
normally classified row. -/
theorem c5_isolamento_erros (ssimR : Img → Img → Option ℚ) (crash : Nat → Bool)
    (imgs : List Img) (nomes : List String) (saud doen : List Img)
    (hpool : saud ≠ [] ∨ doen ≠ []) :
    (classificar_imagens ssimR crash imgs nomes saud doen).length = imgs.length ∧
    (∀ idx img, imgs[idx]? = some img → crash idx = true →
      (classificar_imagens ssimR crash imgs nomes saud doen)[idx]? =
        some { imagem := nome_em nomes idx, ssim_medio_saudaveis := none,
               ssim_medio_doentes := none, classificacao := Classe.Erro,
               confianca := 0, n_comparacoes_saudavel := 0,
               n_comparacoes_doente := 0 }) ∧
    (∀ idx img, imgs[idx]? = some img → crash idx = false →
      (classificar_imagens ssimR crash imgs nomes saud doen)[idx]? =
        some (classificar_uma ssimR img saud doen (nome_em nomes idx))) := by
  refine ⟨classificar_imagens_length ssimR crash imgs nomes saud doen hpool, ?_, ?_⟩
  · intro idx img himg hcr
    rw [classificar_imagens_getElem ssimR crash imgs nomes saud doen idx img hpool himg, hcr]
    rfl
  · intro idx img himg hcr
    rw [classificar_imagens_getElem ssimR crash imgs nomes saud doen idx img hpool himg, hcr]
    rfl

theorem c5_isolamento_erros_witness :
    (classificar_imagens ssimW (fun n => n == 0) [imgU, imgU] ["u", "v"] [imgA] [imgB])[0]? =
      some { imagem := "u", ssim_medio_saudaveis := none, ssim_medio_doentes := none,
             classificacao := Classe.Erro, confianca := 0,
             n_comparacoes_saudavel := 0, n_comparacoes_doente := 0 } ∧
    (classificar_imagens ssimW (fun n => n == 0) [imgU, imgU] ["u", "v"] [imgA] [imgB])[1]? =
      some (classificar_uma ssimW imgU [imgA] [imgB] "v") := by
  have h := c5_isolamento_erros ssimW (fun n => n == 0) [imgU, imgU] ["u", "v"] [imgA] [imgB]
    (Or.inl (List.cons_ne_nil imgA []))
  exact ⟨h.2.1 0 imgU rfl rfl, h.2.2 1 imgU rfl rfl⟩

/-! ### C6 -/

/-- C6: the robust similarity computation is total. It returns `none`
exactly when the skimage SSIM call on the two normalised inputs raises
or yields a non-finite value, and returns `some v` exactly when that
call yields the finite value `v`. -/
theorem c6_ssim_robusto (interp : Interp) (ssimLib : SsimLib) (img1 img2 : Img) :
    (calcular_ssim_robusto interp ssimLib img1 img2 = none ↔
      ssimLib (normalizar_para_ssim interp img1) (normalizar_para_ssim interp img2) =
        Except.error () ∨
      ssimLib (normalizar_para_ssim interp img1) (normalizar_para_ssim interp img2) =
        Except.ok FloatVal.nonfin) ∧
    (∀ v : ℚ, calcular_ssim_robusto interp ssimLib img1 img2 = some v ↔
      ssimLib (normalizar_para_ssim interp img1) (normalizar_para_ssim interp img2) =
        Except.ok (FloatVal.fin v)) := by
  unfold calcular_ssim_robusto
  rcases h : ssimLib (normalizar_para_ssim interp img1) (normalizar_para_ssim interp img2)
    with e | fv
  · cases e
    simp
  · cases fv with
    | fin q => simp
    | nonfin => simp

theorem c6_ssim_robusto_witness :
    calcular_ssim_robusto interp0 ssimLibFin imgA imgB = some (9/10) :=
  ((c6_ssim_robusto interp0 ssimLibFin imgA imgB).2 (9/10)).mpr rfl

/-! ### C7 -/

/-- C7: batch segmentation preserves length and order (the model
returns one mask per input, its interface contract), and a failed model
call replaces every image of the sub-batch by the all-zero fallback
instead of raising. -/
theorem c7_batch_falha_zeros (predict : Predict) (interp : Interp) (imgs : List Img)
    (hne : imgs ≠ [])
    (hlen : ∀ masks, predict (preparar_batch interp imgs) = Except.ok masks →
      masks.length = (preparar_batch interp imgs).length) :
    (segmentar_pulmao_batch predict interp imgs).length = imgs.length ∧
    (∀ e, predict (preparar_batch interp imgs) = Except.error e →
      segmentar_pulmao_batch predict interp imgs = imgs.map zeros_like) ∧
    (∀ (masks : List Img) (b m : Img) (idx : Nat),
      predict (preparar_batch interp imgs) = Except.ok masks →
      (preparar_batch interp imgs)[idx]? = some b → masks[idx]? = some m →
      (segmentar_pulmao_batch predict interp imgs)[idx]? =
        some (aplicar_mascara b m)) := by
  have hemp : imgs.isEmpty = false := by
    rcases imgs with - | ⟨a, l⟩
    · exact absurd rfl hne
    · rfl
  unfold segmentar_pulmao_batch
  rw [hemp]
  simp only [Bool.false_eq_true, if_false]
  rcases hp : predict (preparar_batch interp imgs) with e | masks
  · refine ⟨by simp, fun _ _ => rfl, ?_⟩
    intro masks b m idx hok
    exact absurd hok (by simp)
  · have hm := hlen masks hp
    refine ⟨?_, ?_, ?_⟩
    · show (((preparar_batch interp imgs).zip masks).map
        (fun p => aplicar_mascara p.1 p.2)).length = imgs.length
      rw [List.length_map, List.length_zip, hm, min_self, preparar_batch, List.length_map]
    · intro e herr
      exact absurd herr (by simp)
    · intro masks2 b m idx hok hb hmk
      have hmm : masks = masks2 := by injection hok
      subst hmm
      show (((preparar_batch interp imgs).zip masks).map
        (fun p => aplicar_mascara p.1 p.2))[idx]? = some (aplicar_mascara b m)
      rw [List.getElem?_map,
        show ((preparar_batch interp imgs).zip masks)[idx]? = some (b, m) from
          List.getElem?_zip_eq_some.mpr ⟨hb, hmk⟩]
      rfl

theorem c7_batch_falha_zeros_witness :
    (segmentar_pulmao_batch predOk interp0 [img100]).length = 1 ∧
    (segmentar_pulmao_batch predOk interp0 [img100])[0]? =
      some (aplicar_mascara (mapData (· / 255) (cv2_resize interp0 img100 SEG_SIZE))
        (mapData (· / 255) (cv2_resize interp0 img100 SEG_SIZE))) := by
  have h := c7_batch_falha_zeros predOk interp0 [img100] (List.cons_ne_nil img100 [])
    (fun masks hm => by
      injection hm with h2
      rw [← h2])
  exact ⟨h.1, h.2.2 _ _ _ 0 rfl rfl rfl⟩

/-! ### C8 -/

/-- C8: with an empty healthy pool, a non-empty diseased pool and at
least one defined diseased score, the (non-crashing) row for an unknown
is labelled `Doente`, its confidence is the mean similarity to the
diseased pool, and its healthy comparison count is 0. -/
theorem c8_saudavel_vazio_doente (ssimR : Img → Img → Option ℚ) (crash : Nat → Bool)
    (imgs : List Img) (nomes : List String) (doen : List Img)
    (idx : Nat) (img : Img) (r : Resultado)
    (hdoen : doen ≠ [])
    (himg : imgs[idx]? = some img)
    (hcrash : crash idx = false)
    (hdef : scores_validos ssimR img doen ≠ [])
    (hr : (classificar_imagens ssimR crash imgs nomes [] doen)[idx]? = some r) :
    r.classificacao = Classe.Doente ∧
    r.confianca =
      (scores_validos ssimR img doen).sum / (scores_validos ssimR img doen).length ∧
    r.ssim_medio_doentes =
      some ((scores_validos ssimR img doen).sum / (scores_validos ssimR img doen).length) ∧
    r.n_comparacoes_saudavel = 0 := by
  rw [classificar_imagens_getElem ssimR crash imgs nomes [] doen idx img
    (Or.inr hdoen) himg, hcrash] at hr
  simp only [Bool.false_eq_true, if_false, Option.some_inj] at hr
  subst hr
  have hsaud : media_opt (scores_validos ssimR img []) = none := rfl
  have hdoenm : media_opt (scores_validos ssimR img doen) =
      some ((scores_validos ssimR img doen).sum / (scores_validos ssimR img doen).length) := by
    unfold media_opt
    rw [if_neg (by simpa [List.isEmpty_iff] using hdef)]
  refine ⟨?_, ?_, ?_, rfl⟩
  · rw [classificar_uma_classificacao, hsaud, hdoenm]
    rfl
  · rw [classificar_uma_confianca, hsaud, hdoenm]
    rfl
  · rw [classificar_uma_ssim_doentes, hdoenm]

theorem c8_saudavel_vazio_doente_witness :
    (classificar_uma ssimW imgU [] [imgB] "u").classificacao = Classe.Doente ∧
    (classificar_uma ssimW imgU [] [imgB] "u").confianca =
      (scores_validos ssimW imgU [imgB]).sum / (scores_validos ssimW imgU [imgB]).length ∧
    (classificar_uma ssimW imgU [] [imgB] "u").ssim_medio_doentes =
      some ((scores_validos ssimW imgU [imgB]).sum / (scores_validos ssimW imgU [imgB]).length) ∧
    (classificar_uma ssimW imgU [] [imgB] "u").n_comparacoes_saudavel = 0 :=
  c8_saudavel_vazio_doente ssimW semCrash [imgU] ["u"] [imgB] 0 imgU
    (classificar_uma ssimW imgU [] [imgB] "u") (List.cons_ne_nil imgB []) rfl rfl
    (by simp [scores_validos, ssimW]) rfl

/-! ### C9 -/

/-- C9 (counterexample): with a negative similarity score (SSIM ranges
over [-1,1]) and only the diseased pool non-empty, the emitted
confidence is the negative pool mean, so confidence is not always
nonnegative. -/
theorem c9_contraexemplo :
    ¬ (∀ r ∈ classificar_imagens ssimNeg semCrash [imgU] ["u"] [] [imgB],
        0 ≤ r.confianca) := by
  intro h
  have hrow : (classificar_imagens ssimNeg semCrash [imgU] ["u"] [] [imgB])[0]? =
      some (classificar_uma ssimNeg imgU [] [imgB] (nome_em ["u"] 0)) := by
    rw [classificar_imagens_getElem ssimNeg semCrash [imgU] ["u"] [] [imgB] 0 imgU
      (Or.inr (List.cons_ne_nil imgB [])) rfl]
    rfl
  have h2 := h _ (List.getElem?_mem hrow)
  have hconf : (classificar_uma ssimNeg imgU [] [imgB] (nome_em ["u"] 0)).confianca =
      -(1/2) := by
    rw [classificar_uma_confianca]
    have h1 : media_opt (scores_validos ssimNeg imgU []) = none := rfl
    have h3 : media_opt (scores_validos ssimNeg imgU [imgB]) = some (-(1/2)) := by
      simp [media_opt, scores_validos, ssimNeg]
    rw [h1, h3]
    rfl
  rw [hconf] at h2
  linarith

/-- C9 (amended): when every similarity score the scorer returns is
nonnegative (as in this domain, where segmented radiographs score near
[0,1]), every emitted confidence is nonnegative. -/
theorem c9_confianca_nao_negativa (ssimR : Img → Img → Option ℚ) (crash : Nat → Bool)
    (imgs : List Img) (nomes : List String) (saud doen : List Img) (r : Resultado)
    (hnn : ∀ a b q, ssimR a b = some q → 0 ≤ q)
    (hr : r ∈ classificar_imagens ssimR crash imgs nomes saud doen) :
    0 ≤ r.confianca := by
  rcases mem_classificar_imagens ssimR crash imgs nomes saud doen r hr
    with ⟨idx, img, -, heq⟩
  have key : ∀ pool m, media_opt (scores_validos ssimR img pool) = some m → 0 ≤ m := by
    intro pool m hm
    unfold media_opt at hm
    split at hm
    · exact absurd hm (by simp)
    · rw [Option.some_inj] at hm
      rw [← hm]
      apply div_nonneg
      · apply List.sum_nonneg
        intro x hx
        rcases List.mem_filterMap.mp hx with ⟨ref, -, href⟩
        exact hnn img ref x href
      · exact Nat.cast_nonneg _
  by_cases hcr : crash idx = true
  · rw [if_pos hcr] at heq
    subst heq
    exact le_refl 0
  · rw [if_neg hcr] at heq
    subst heq
    rw [classificar_uma_confianca]
    rcases h1 : media_opt (scores_validos ssimR img saud) with - | ms <;>
      rcases h2 : media_opt (scores_validos ssimR img doen) with - | md <;>
      simp only [regra_decisao]
    · exact le_refl 0
    · exact key doen md h2
    · exact key saud ms h1
    · split
      · rename_i hgt
        have : (0:ℚ) ≤ ms - md := by linarith
        exact this
      · rename_i hgt
        have hle : ms ≤ md := not_lt.mp hgt
        have : (0:ℚ) ≤ md - ms := by linarith
        exact this

theorem c9_confianca_nao_negativa_witness :
    0 ≤ (classificar_uma ssimPos imgU [imgA] [imgB] "u").confianca := by
  have hrow : (classificar_imagens ssimPos semCrash [imgU] ["u"] [imgA] [imgB])[0]? =
      some (classificar_uma ssimPos imgU [imgA] [imgB] (nome_em ["u"] 0)) := by
    rw [classificar_imagens_getElem ssimPos semCrash [imgU] ["u"] [imgA] [imgB] 0 imgU
      (Or.inl (List.cons_ne_nil imgA [])) rfl]
    rfl
  exact c9_confianca_nao_negativa ssimPos semCrash [imgU] ["u"] [imgA] [imgB]
    (classificar_uma ssimPos imgU [imgA] [imgB] "u")
    (fun a b q h => by
      injection h with h2
      rw [← h2]
      norm_num [ssimPos])
    (List.getElem?_mem hrow)

/-! ### C10 -/

/-- C10: the single-image wrapper never fails: as long as the model
honours its one-mask-per-input interface, the singleton batch always
yields a non-empty result, so indexing `[0]` is safe on every path
(model success and model failure alike). -/
theorem c10_wrapper_total (predict : Predict) (interp : Interp) (img : Img)
    (hlen : ∀ masks, predict (preparar_batch interp [img]) = Except.ok masks →
      masks ≠ []) :
    (segmentar_pulmao predict interp img).isSome = true := by
  unfold segmentar_pulmao segmentar_pulmao_batch
  rcases hp : predict (preparar_batch interp [img]) with e | masks
  · simp [hp]
  · rcases masks with - | ⟨m, rest⟩
    · exact absurd rfl (hlen [] hp)
    · simp only [hp, List.isEmpty_cons]
      simp [preparar_batch]

theorem c10_wrapper_total_witness :
    (segmentar_pulmao predOk interp0 img100).isSome = true :=
  c10_wrapper_total predOk interp0 img100
    (fun masks hm => by
      injection hm with h2
      rw [← h2]
      exact List.cons_ne_nil _ _)

end Chexpert
